import Mathlib

/-!
Verification development for the simple-llm-loadtester measurement core.

Shallow embedding of the pure computational kernel of the repository:
  - shared/core/metrics.py      (MetricsCalculator, GoodputCalculator)
  - shared/core/recommend.py    (InfraRecommender: saturation + scaling)
  - shared/core/validator.py    (MetricsValidator tolerance comparison)
  - shared/core/load_generator.py (rolling-metrics emission cadence)
  - shared/adapters/openai_compat.py and adapters/triton.py
    (RequestResult construction on the success and failure paths)

Python floats are modelled as exact rationals (ℚ); Python ints as ℤ/ℕ;
Optional fields as Option.  I/O (HTTP traffic, the event stream, raised
exceptions) is abstracted into explicit observation values fed to the
pure result-constructing code that the source runs on those observations.
-/

/-- `models.py::RequestResult` — one attempt against the server. -/
structure RequestResult where
  request_id : Nat
  ttft_ms : ℚ
  tpot_ms : Option ℚ := none
  e2e_latency_ms : ℚ
  input_tokens : Nat
  output_tokens : Nat
  success : Bool := true
  error_type : Option String := none
  itl_ms : Option (List ℚ) := none
  deriving Repr, DecidableEq, Inhabited

/-- `models.py::GoodputThresholds` — optional SLO upper bounds. -/
structure GoodputThresholds where
  ttft_ms : Option ℚ := none
  tpot_ms : Option ℚ := none
  e2e_ms : Option ℚ := none
  deriving Repr, DecidableEq, Inhabited

/-- `models.py::GoodputResult`. -/
structure GoodputResult where
  thresholds : GoodputThresholds
  satisfied_requests : Nat
  total_requests : Nat
  goodput_percent : ℚ
  ttft_satisfied : Option Nat := none
  tpot_satisfied : Option Nat := none
  e2e_satisfied : Option Nat := none
  deriving Repr, DecidableEq, Inhabited

/-- `models.py::LatencyStats`.  The source's `std` field (a float square
root) is represented exactly by its square `std_sq`; `std = 0` in the
source iff `std_sq = 0` here. -/
structure LatencyStats where
  min : ℚ
  max : ℚ
  mean : ℚ
  median : ℚ
  p50 : ℚ
  p95 : ℚ
  p99 : ℚ
  std_sq : ℚ
  deriving Repr, DecidableEq, Inhabited

namespace MetricsCalculator

/-- The sorted sample, as produced by `np.sort`/`np.percentile`
preprocessing in `calculate_latency_stats`. -/
def sortedOf (l : List ℚ) : List ℚ := List.insertionSort (· ≤ ·) l

/-- `np.min` over a non-empty vector (the source never calls it on an
empty one; the `[]` case is arbitrary). -/
def npMin : List ℚ → ℚ
  | [] => 0
  | x :: xs => xs.foldl min x

/-- `np.max` over a non-empty vector. -/
def npMax : List ℚ → ℚ
  | [] => 0
  | x :: xs => xs.foldl max x

/-- `np.mean`: arithmetic mean. -/
def npMean (l : List ℚ) : ℚ := l.sum / l.length

/-- Square of `np.std` (population standard deviation). -/
def npVarianceOf (l : List ℚ) : ℚ :=
  ((l.map (fun x => (x - npMean l) ^ 2)).sum) / l.length

/-- Linear interpolation of a sorted sample `s` at fractional rank
`pos`, exactly `np.percentile`'s default rule: the value is
`s[⌊pos⌋] + (pos − ⌊pos⌋) · (s[⌈pos⌉] − s[⌊pos⌋])`. -/
def interpolate (s : List ℚ) (pos : ℚ) : ℚ :=
  let lo := s.getD (Int.toNat ⌊pos⌋) 0
  let hi := s.getD (Int.toNat ⌈pos⌉) 0
  lo + (pos - (⌊pos⌋ : ℚ)) * (hi - lo)

/-- `np.percentile(arr, q)` with the default linear interpolation
between the two nearest ranks of the sorted sample. -/
def percentile (l : List ℚ) (q : ℚ) : ℚ :=
  interpolate (sortedOf l) (q / 100 * ((l.length : ℚ) - 1))

/-- `np.median`, which coincides with the 50th linear-interpolation
percentile (average of the two middle values for even length). -/
def npMedian (l : List ℚ) : ℚ := percentile l 50

/-- `metrics.py::MetricsCalculator.calculate_latency_stats`. -/
def calculate_latency_stats (values : List ℚ) : LatencyStats :=
  if values = [] then
    { min := 0, max := 0, mean := 0, median := 0, p50 := 0, p95 := 0, p99 := 0, std_sq := 0 }
  else
    { min := npMin values
      max := npMax values
      mean := npMean values
      median := npMedian values
      p50 := percentile values 50
      p95 := percentile values 95
      p99 := percentile values 99
      std_sq := npVarianceOf values }

/-- `metrics.py::MetricsCalculator.calculate_throughput`. -/
def calculate_throughput (total_tokens : Nat) (duration_seconds : ℚ) : ℚ :=
  if duration_seconds ≤ 0 then 0 else (total_tokens : ℚ) / duration_seconds

/-- `metrics.py::MetricsCalculator.calculate_request_rate`. -/
def calculate_request_rate (total_requests : Nat) (duration_seconds : ℚ) : ℚ :=
  if duration_seconds ≤ 0 then 0 else (total_requests : ℚ) / duration_seconds

end MetricsCalculator

namespace GoodputCalculator

/-- Body of the `meets_all` flag computation in
`GoodputCalculator.calculate`: the flag survives iff no present
threshold is exceeded, and an absent `tpot_ms` clears it whenever a
TPOT threshold is present. -/
def meets_all (thresholds : GoodputThresholds) (r : RequestResult) : Bool :=
  !((match thresholds.ttft_ms with
     | some t => decide (r.ttft_ms > t)
     | none => false)
    || (match thresholds.tpot_ms with
        | some t => match r.tpot_ms with
          | none => true
          | some v => decide (v > t)
        | none => false)
    || (match thresholds.e2e_ms with
       | some t => decide (r.e2e_latency_ms > t)
       | none => false))

/-- `metrics.py::GoodputCalculator.calculate`. -/
def calculate (results : List RequestResult) (thresholds : GoodputThresholds) :
    GoodputResult :=
  if results = [] then
    { thresholds := thresholds, satisfied_requests := 0, total_requests := 0,
      goodput_percent := 0 }
  else
    let total := results.length
    let ttft_satisfied := thresholds.ttft_ms.map
      (fun t => results.countP (fun r => decide (r.ttft_ms ≤ t)))
    let tpot_satisfied := thresholds.tpot_ms.map
      (fun t => results.countP (fun r =>
        match r.tpot_ms with
        | some v => decide (v ≤ t)
        | none => false))
    let e2e_satisfied := thresholds.e2e_ms.map
      (fun t => results.countP (fun r => decide (r.e2e_latency_ms ≤ t)))
    let satisfied := results.countP (meets_all thresholds)
    { thresholds := thresholds
      satisfied_requests := satisfied
      total_requests := total
      goodput_percent := if total > 0 then (satisfied : ℚ) / (total : ℚ) * 100 else 0
      ttft_satisfied := ttft_satisfied
      tpot_satisfied := tpot_satisfied
      e2e_satisfied := e2e_satisfied }

end GoodputCalculator

/-- Spec-side satisfaction predicate, following the spec's words: a
request is satisfied iff it meets every threshold that is present
(`ttft_ms ≤` threshold, `tpot_ms ≤` threshold, `e2e ≤` threshold),
and a request whose `tpot_ms` is absent fails a present TPOT check. -/
def specSatisfied (thresholds : GoodputThresholds) (r : RequestResult) : Bool :=
  (match thresholds.ttft_ms with
   | some t => decide (r.ttft_ms ≤ t)
   | none => true)
  && (match thresholds.tpot_ms with
      | some t => match r.tpot_ms with
        | some v => decide (v ≤ t)
        | none => false
      | none => true)
  && (match thresholds.e2e_ms with
     | some t => decide (r.e2e_latency_ms ≤ t)
     | none => true)

/-- The four synthetic results of the spec's goodput-conjunction seed
scenario, `(ttft, tpot, e2e)` = (200,30,1000), (200,30,4000),
(600,30,1000), (200,60,1000). -/
def goodputScenarioResults : List RequestResult :=
  [ { request_id := 0, ttft_ms := 200, tpot_ms := some 30, e2e_latency_ms := 1000,
      input_tokens := 1, output_tokens := 1 },
    { request_id := 1, ttft_ms := 200, tpot_ms := some 30, e2e_latency_ms := 4000,
      input_tokens := 1, output_tokens := 1 },
    { request_id := 2, ttft_ms := 600, tpot_ms := some 30, e2e_latency_ms := 1000,
      input_tokens := 1, output_tokens := 1 },
    { request_id := 3, ttft_ms := 200, tpot_ms := some 60, e2e_latency_ms := 1000,
      input_tokens := 1, output_tokens := 1 } ]

/-- Thresholds `{ttft=500, tpot=50, e2e=3000}` of the seed scenario. -/
def goodputScenarioThresholds : GoodputThresholds :=
  { ttft_ms := some 500, tpot_ms := some 50, e2e_ms := some 3000 }

lemma meets_all_eq_specSatisfied (th : GoodputThresholds) (r : RequestResult) :
    GoodputCalculator.meets_all th r = specSatisfied th r := by
  unfold GoodputCalculator.meets_all specSatisfied
  rcases th with ⟨t1, t2, t3⟩
  cases t1 <;> cases t2 <;> cases t3 <;> cases hr : r.tpot_ms <;>
    simp [hr, Bool.not_or, ← not_lt, decide_not]

lemma calculate_satisfied_eq (results : List RequestResult)
    (th : GoodputThresholds) :
    (GoodputCalculator.calculate results th).satisfied_requests =
      results.countP (specSatisfied th) := by
  unfold GoodputCalculator.calculate
  by_cases h : results = []
  · simp [h]
  · simp only [h, if_neg h]
    exact List.countP_congr (fun r _ => by rw [meets_all_eq_specSatisfied])

lemma calculate_percent_eq (results : List RequestResult)
    (th : GoodputThresholds) :
    (GoodputCalculator.calculate results th).goodput_percent =
      ((GoodputCalculator.calculate results th).satisfied_requests : ℚ) /
        ((GoodputCalculator.calculate results th).total_requests : ℚ) * 100 := by
  unfold GoodputCalculator.calculate
  by_cases h : results = []
  · simp [h]
  · have hl : 0 < results.length := List.length_pos.2 h
    simp only [h, if_neg h, hl, if_pos]
    simp

/-- C1.  `GoodputCalculator.calculate` counts a request as satisfied iff
it meets every present threshold (an absent `tpot_ms` failing a present
TPOT check); `goodput_percent = satisfied / total * 100`; and on the
four synthetic results under thresholds `{ttft=500, tpot=50, e2e=3000}`
it returns `ttft_satisfied=3, tpot_satisfied=3, e2e_satisfied=3,
satisfied=1, percent=25`. -/
theorem goodput_calculate_conjunctive_slo :
    (∀ (results : List RequestResult) (th : GoodputThresholds),
      (GoodputCalculator.calculate results th).satisfied_requests =
        results.countP (specSatisfied th) ∧
      (GoodputCalculator.calculate results th).goodput_percent =
        ((GoodputCalculator.calculate results th).satisfied_requests : ℚ) /
          ((GoodputCalculator.calculate results th).total_requests : ℚ) * 100) ∧
    ((GoodputCalculator.calculate goodputScenarioResults
        goodputScenarioThresholds).ttft_satisfied = some 3 ∧
      (GoodputCalculator.calculate goodputScenarioResults
        goodputScenarioThresholds).tpot_satisfied = some 3 ∧
      (GoodputCalculator.calculate goodputScenarioResults
        goodputScenarioThresholds).e2e_satisfied = some 3 ∧
      (GoodputCalculator.calculate goodputScenarioResults
        goodputScenarioThresholds).satisfied_requests = 1 ∧
      (GoodputCalculator.calculate goodputScenarioResults
        goodputScenarioThresholds).total_requests = 4 ∧
      (GoodputCalculator.calculate goodputScenarioResults
        goodputScenarioThresholds).goodput_percent = 25) := by
  refine ⟨fun results th => ⟨calculate_satisfied_eq results th,
    calculate_percent_eq results th⟩, ?_, ?_, ?_, ?_, ?_, ?_⟩
  · decide
  · decide
  · decide
  · decide
  · decide
  · rw [calculate_percent_eq]
    have h1 : (GoodputCalculator.calculate goodputScenarioResults
        goodputScenarioThresholds).satisfied_requests = 1 := by decide
    have h2 : (GoodputCalculator.calculate goodputScenarioResults
        goodputScenarioThresholds).total_requests = 4 := by decide
    rw [h1, h2]
    norm_num

/-!
## Server adapters

`shared/adapters/openai_compat.py` and `adapters/triton.py`.  The HTTP
exchange is abstracted into an observation value: on success the timing
events actually seen on the wire, on failure the raised exception
(either an `httpx.HTTPStatusError` carrying a status code, caught by
the first `except` clause, or any other exception, caught by the
second, whose recorded kind is `type(e).__name__`).  The embedded
functions are the pure result-record constructors those handlers run.
-/

/-- A raised exception on a request path: either an
`httpx.HTTPStatusError` with a status code, or any other exception
identified by its Python class name (`type(e).__name__`), e.g.
`ConnectError`, `ReadTimeout`, `CancelledError`, `JSONDecodeError`. -/
inductive SendFailure where
  | httpStatus (code : Nat)
  | exn (className : String)
  deriving Repr, DecidableEq

/-- What the streaming loop of
`OpenAICompatibleAdapter._send_streaming` observed on a successful
exchange: the request start time, the timestamps of the SSE events
whose `choices[0].delta.content` was non-empty (in arrival order), and
the time the stream ended.  Each such event counts as one token. -/
structure StreamObservation where
  start_time : ℚ
  tokenTimes : List ℚ
  end_time : ℚ
  deriving Repr, DecidableEq

/-- Outcome of one streaming request: either the observation of a
completed stream, or an exception raised at `end_time`. -/
inductive StreamingOutcome where
  | ok (obs : StreamObservation)
  | failed (start_time end_time : ℚ) (e : SendFailure)
  deriving Repr, DecidableEq

/-- Outcome of one non-streaming request: a JSON body carrying the
optional `usage.completion_tokens` / `usage.prompt_tokens` counts, or
an exception. -/
inductive NonStreamingOutcome where
  | ok (start_time end_time : ℚ) (completion_tokens prompt_tokens : Option Nat)
  | failed (start_time end_time : ℚ) (e : SendFailure)
  deriving Repr, DecidableEq

/-- The `error_type` string recorded by both `except` clauses:
`f"HTTP_{e.response.status_code}"` for `httpx.HTTPStatusError`, and
`type(e).__name__` otherwise. -/
def SendFailure.errorType : SendFailure → String
  | .httpStatus code => "HTTP_" ++ toString code
  | .exn className => className

/-- Inter-token gaps `[(t[i] − t[i−1]) · 1000 for i in 1..]` computed
over the post-first-token timestamp vector. -/
def itlGaps : List ℚ → List ℚ
  | a :: b :: rest => (b - a) * 1000 :: itlGaps (b :: rest)
  | _ => []

namespace OpenAICompatibleAdapter

/-- `openai_compat.py::OpenAICompatibleAdapter._send_streaming`.
`input_tokens_estimate` stands for `TokenCounter.count(prompt, model)`. -/
def send_streaming (request_id : Nat) (input_tokens_estimate : Nat) :
    StreamingOutcome → RequestResult
  | .ok obs =>
    let first_token_time := obs.tokenTimes.head?.getD obs.end_time
    let token_times := obs.tokenTimes.tail
    let output_tokens := obs.tokenTimes.length
    let ttft_ms := (first_token_time - obs.start_time) * 1000
    let e2e_ms := (obs.end_time - obs.start_time) * 1000
    let tpot_ms : Option ℚ :=
      if 1 < output_tokens then
        some ((obs.end_time - first_token_time) * 1000 / ((output_tokens : ℚ) - 1))
      else none
    let itl_ms : Option (List ℚ) :=
      if 1 < token_times.length then some (itlGaps token_times) else none
    { request_id := request_id
      ttft_ms := ttft_ms
      tpot_ms := tpot_ms
      e2e_latency_ms := e2e_ms
      input_tokens := input_tokens_estimate
      output_tokens := output_tokens
      success := true
      itl_ms := itl_ms }
  | .failed start_time end_time e =>
    { request_id := request_id
      ttft_ms := 0
      e2e_latency_ms := (end_time - start_time) * 1000
      input_tokens := input_tokens_estimate
      output_tokens := 0
      success := false
      error_type := some e.errorType }

/-- `openai_compat.py::OpenAICompatibleAdapter._send_non_streaming`.
`output_tokens = usage.completion_tokens` (default 0),
`input_tokens = usage.prompt_tokens` (default the local estimate),
`ttft_ms = e2e_ms`, `tpot_ms = e2e_ms / output_tokens` when positive. -/
def send_non_streaming (request_id : Nat) (input_tokens_estimate : Nat) :
    NonStreamingOutcome → RequestResult
  | .ok start_time end_time completion_tokens prompt_tokens =>
    let output_tokens := completion_tokens.getD 0
    let input_tokens := prompt_tokens.getD input_tokens_estimate
    let e2e_ms := (end_time - start_time) * 1000
    let ttft_ms := e2e_ms
    let tpot_ms : Option ℚ :=
      if 0 < output_tokens then some (e2e_ms / (output_tokens : ℚ)) else none
    { request_id := request_id
      ttft_ms := ttft_ms
      tpot_ms := tpot_ms
      e2e_latency_ms := e2e_ms
      input_tokens := input_tokens
      output_tokens := output_tokens
      success := true }
  | .failed start_time end_time e =>
    { request_id := request_id
      ttft_ms := 0
      e2e_latency_ms := (end_time - start_time) * 1000
      input_tokens := input_tokens_estimate
      output_tokens := 0
      success := false
      error_type := some e.errorType }

end OpenAICompatibleAdapter

/-- Python's `str.split()` with no argument: split on whitespace runs,
discarding empty pieces.  Used by the Triton adapter to approximate
token counts. -/
def pySplitCount (s : String) : Nat :=
  ((s.split Char.isWhitespace).filter (fun t => t ≠ "")).length

/-- Outcome of a Triton streaming request: the parsed frames and the
stream end time, or an exception raised at `end_time`. -/
inductive TritonStreamingOutcome where
  | ok (frames : List (ℚ × String)) (end_time : ℚ)
  | failed (end_time : ℚ) (e : SendFailure)
  deriving Repr, DecidableEq

/-- Outcome of a Triton non-streaming request: the response
`text_output` and end time, or an exception raised at `end_time`. -/
inductive TritonNonStreamingOutcome where
  | ok (text_output : String) (end_time : ℚ)
  | failed (end_time : ℚ) (e : SendFailure)
  deriving Repr, DecidableEq

/-- State of the Triton streaming fold: first-token timestamp,
subsequent token timestamps, token count and accumulated text. -/
structure TritonStreamState where
  first_token_time : Option ℚ := none
  token_times : List ℚ := []
  output_tokens : Nat := 0
  output_text : String := ""
  deriving Repr

namespace TritonAdapter

/-- One iteration of the frame loop in
`triton.py::TritonAdapter._send_streaming`: a parsed frame is a
`(timestamp, text_output)` pair; frames with empty `text_output` are
skipped; the token count grows by the whitespace word count of the new
suffix of `text_output`. -/
def stepFrame (st : TritonStreamState) (frame : ℚ × String) : TritonStreamState :=
  let text_output := frame.2
  if text_output = "" then st
  else
    let current_time := frame.1
    let st1 :=
      match st.first_token_time with
      | none => { st with first_token_time := some current_time }
      | some _ => { st with token_times := st.token_times ++ [current_time] }
    let new_text := text_output.drop st.output_text.length
    { st1 with
        output_tokens := st.output_tokens + pySplitCount new_text
        output_text := text_output }

/-- `triton.py::TritonAdapter._send_streaming`.  On success the parsed
frames (one JSON object per line, unparseable lines already skipped)
are folded; on failure the handlers mirror the OpenAI adapter with
`input_tokens = len(prompt.split())`. -/
def send_streaming (request_id : Nat) (prompt_word_count : Nat)
    (start_time : ℚ) : TritonStreamingOutcome → RequestResult
  | .ok frames end_time =>
    let st := frames.foldl stepFrame {}
    let first_token_time := st.first_token_time.getD end_time
    let ttft_ms := (first_token_time - start_time) * 1000
    let e2e_ms := (end_time - start_time) * 1000
    let tpot_ms : Option ℚ :=
      if 1 < st.output_tokens then
        some ((end_time - first_token_time) * 1000 / ((st.output_tokens : ℚ) - 1))
      else none
    let itl_ms : Option (List ℚ) :=
      if 1 < st.token_times.length then some (itlGaps st.token_times) else none
    { request_id := request_id
      ttft_ms := ttft_ms
      tpot_ms := tpot_ms
      e2e_latency_ms := e2e_ms
      input_tokens := prompt_word_count
      output_tokens := st.output_tokens
      success := true
      itl_ms := itl_ms }
  | .failed end_time e =>
    { request_id := request_id
      ttft_ms := 0
      e2e_latency_ms := (end_time - start_time) * 1000
      input_tokens := prompt_word_count
      output_tokens := 0
      success := false
      error_type := some e.errorType }

/-- `triton.py::TritonAdapter._send_non_streaming`:
`output_tokens = len(text_output.split())`, `ttft_ms = e2e_ms`,
`tpot_ms = e2e_ms / output_tokens` when positive. -/
def send_non_streaming (request_id : Nat) (prompt_word_count : Nat)
    (start_time : ℚ) : TritonNonStreamingOutcome → RequestResult
  | .ok text_output end_time =>
    let output_tokens := pySplitCount text_output
    let e2e_ms := (end_time - start_time) * 1000
    let ttft_ms := e2e_ms
    let tpot_ms : Option ℚ :=
      if 0 < output_tokens then some (e2e_ms / (output_tokens : ℚ)) else none
    { request_id := request_id
      ttft_ms := ttft_ms
      tpot_ms := tpot_ms
      e2e_latency_ms := e2e_ms
      input_tokens := prompt_word_count
      output_tokens := output_tokens
      success := true }
  | .failed end_time e =>
    { request_id := request_id
      ttft_ms := 0
      e2e_latency_ms := (end_time - start_time) * 1000
      input_tokens := prompt_word_count
      output_tokens := 0
      success := false
      error_type := some e.errorType }

end TritonAdapter

/-- C2.  For both adapters: a successful streaming request records
`tpot_ms = (e2e_ms − ttft_ms) / (output_tokens − 1)` when
`output_tokens > 1` and leaves it absent otherwise; a successful
non-streaming request records `ttft_ms = e2e_ms` and a `tpot_ms` that
is absent unless the server-reported usage (`usage.completion_tokens`,
or for Triton the word count of `text_output`) is positive, in which
case it is derived from it as `e2e_ms / output_tokens`. -/
theorem adapter_tpot_formula :
    (∀ (rid k : Nat) (obs : StreamObservation),
      (OpenAICompatibleAdapter.send_streaming rid k (.ok obs)).tpot_ms =
        if 1 < (OpenAICompatibleAdapter.send_streaming rid k (.ok obs)).output_tokens then
          some (((OpenAICompatibleAdapter.send_streaming rid k (.ok obs)).e2e_latency_ms -
              (OpenAICompatibleAdapter.send_streaming rid k (.ok obs)).ttft_ms) /
            (((OpenAICompatibleAdapter.send_streaming rid k (.ok obs)).output_tokens : ℚ) - 1))
        else none) ∧
    (∀ (rid k : Nat) (s t : ℚ) (frames : List (ℚ × String)),
      (TritonAdapter.send_streaming rid k s (.ok frames t)).tpot_ms =
        if 1 < (TritonAdapter.send_streaming rid k s (.ok frames t)).output_tokens then
          some (((TritonAdapter.send_streaming rid k s (.ok frames t)).e2e_latency_ms -
              (TritonAdapter.send_streaming rid k s (.ok frames t)).ttft_ms) /
            (((TritonAdapter.send_streaming rid k s (.ok frames t)).output_tokens : ℚ) - 1))
        else none) ∧
    (∀ (rid k : Nat) (s t : ℚ) (ct pt : Option Nat),
      (OpenAICompatibleAdapter.send_non_streaming rid k (.ok s t ct pt)).ttft_ms =
        (OpenAICompatibleAdapter.send_non_streaming rid k (.ok s t ct pt)).e2e_latency_ms ∧
      (OpenAICompatibleAdapter.send_non_streaming rid k (.ok s t ct pt)).tpot_ms =
        if 0 < ct.getD 0 then
          some ((OpenAICompatibleAdapter.send_non_streaming rid k
              (.ok s t ct pt)).e2e_latency_ms / ((ct.getD 0 : ℚ)))
        else none) ∧
    (∀ (rid k : Nat) (s t : ℚ) (text_output : String),
      (TritonAdapter.send_non_streaming rid k s (.ok text_output t)).ttft_ms =
        (TritonAdapter.send_non_streaming rid k s (.ok text_output t)).e2e_latency_ms ∧
      (TritonAdapter.send_non_streaming rid k s (.ok text_output t)).tpot_ms =
        if 0 < pySplitCount text_output then
          some ((TritonAdapter.send_non_streaming rid k s
              (.ok text_output t)).e2e_latency_ms / ((pySplitCount text_output : ℚ)))
        else none) := by
  refine ⟨fun rid k obs => ?_, fun rid k s t frames => ?_,
    fun rid k s t ct pt => ⟨rfl, rfl⟩, fun rid k s t text_output => ⟨rfl, rfl⟩⟩
  · simp only [OpenAICompatibleAdapter.send_streaming]
    split
    · congr 1
      ring
    · rfl
  · simp only [TritonAdapter.send_streaming]
    split
    · congr 1
      ring
    · rfl

/-- C9 (implicit).  On every failure path of both adapters, streaming
and non-streaming alike, the returned `RequestResult` has
`success = false`, `ttft_ms = 0`, `output_tokens = 0`, and a non-`None`
`error_type` — in particular every failed request reports a
time-to-first-token of exactly zero. -/
theorem adapter_failure_zero_fields :
    ∀ (rid k : Nat) (s t : ℚ) (f : SendFailure),
      ((OpenAICompatibleAdapter.send_streaming rid k (.failed s t f)).success = false ∧
        (OpenAICompatibleAdapter.send_streaming rid k (.failed s t f)).ttft_ms = 0 ∧
        (OpenAICompatibleAdapter.send_streaming rid k (.failed s t f)).output_tokens = 0 ∧
        (OpenAICompatibleAdapter.send_streaming rid k (.failed s t f)).error_type ≠ none) ∧
      ((OpenAICompatibleAdapter.send_non_streaming rid k (.failed s t f)).success = false ∧
        (OpenAICompatibleAdapter.send_non_streaming rid k (.failed s t f)).ttft_ms = 0 ∧
        (OpenAICompatibleAdapter.send_non_streaming rid k (.failed s t f)).output_tokens = 0 ∧
        (OpenAICompatibleAdapter.send_non_streaming rid k (.failed s t f)).error_type ≠ none) ∧
      ((TritonAdapter.send_streaming rid k s (.failed t f)).success = false ∧
        (TritonAdapter.send_streaming rid k s (.failed t f)).ttft_ms = 0 ∧
        (TritonAdapter.send_streaming rid k s (.failed t f)).output_tokens = 0 ∧
        (TritonAdapter.send_streaming rid k s (.failed t f)).error_type ≠ none) ∧
      ((TritonAdapter.send_non_streaming rid k s (.failed t f)).success = false ∧
        (TritonAdapter.send_non_streaming rid k s (.failed t f)).ttft_ms = 0 ∧
        (TritonAdapter.send_non_streaming rid k s (.failed t f)).output_tokens = 0 ∧
        (TritonAdapter.send_non_streaming rid k s (.failed t f)).error_type ≠ none) := by
  intro rid k s t f
  refine ⟨⟨rfl, rfl, rfl, ?_⟩, ⟨rfl, rfl, rfl, ?_⟩, ⟨rfl, rfl, rfl, ?_⟩, ⟨rfl, rfl, rfl, ?_⟩⟩ <;>
    simp [OpenAICompatibleAdapter.send_streaming, OpenAICompatibleAdapter.send_non_streaming,
      TritonAdapter.send_streaming, TritonAdapter.send_non_streaming]

/-- The error-kind taxonomy claimed by the spec:
`HTTP_<code>`, `Timeout`, `Connect`, `Decode`, `Cancelled`, `Other`.
The `HTTP_` prefix test is spelled out on the character list so that it
evaluates by kernel reduction. -/
def errorKindTaxonomy (s : String) : Bool :=
  decide (s.data.take 5 = "HTTP_".data) || s == "Timeout" || s == "Connect" ||
    s == "Decode" || s == "Cancelled" || s == "Other"

/-- C7 counterexample.  A connection failure raises
`httpx.ConnectError`, which only the generic handler catches; the
recorded kind is the exception class name `"ConnectError"`, which is
not in the spec's taxonomy, although the result is a failed one. -/
theorem adapter_error_kind_counterexample :
    (OpenAICompatibleAdapter.send_streaming 0 0
      (.failed 0 1 (.exn "ConnectError"))).success = false ∧
    (OpenAICompatibleAdapter.send_streaming 0 0
        (.failed 0 1 (.exn "ConnectError"))).error_type.map errorKindTaxonomy =
      some false := by
  constructor
  · rfl
  · decide

/-- C7 amended.  On every failure path of both bundled adapters the
recorded `error_type` is either `HTTP_<code>` (for
`httpx.HTTPStatusError`) or the raised exception's Python class name
(e.g. `ConnectError`, `ReadTimeout`, `CancelledError`); no
normalisation to the taxonomy `Timeout`/`Connect`/`Decode`/
`Cancelled`/`Other` is applied. -/
theorem adapter_error_kind_amended :
    ∀ (rid k : Nat) (s t : ℚ) (f : SendFailure),
      ∃ kind : String,
        ((∃ code : Nat, f = SendFailure.httpStatus code ∧
            kind = "HTTP_" ++ toString code) ∨
          (∃ n : String, f = SendFailure.exn n ∧ kind = n)) ∧
        (OpenAICompatibleAdapter.send_streaming rid k (.failed s t f)).error_type =
          some kind ∧
        (OpenAICompatibleAdapter.send_non_streaming rid k (.failed s t f)).error_type =
          some kind ∧
        (TritonAdapter.send_streaming rid k s (.failed t f)).error_type = some kind ∧
        (TritonAdapter.send_non_streaming rid k s (.failed t f)).error_type = some kind := by
  intro rid k s t f
  refine ⟨f.errorType, ?_, rfl, rfl, rfl, rfl⟩
  cases f with
  | httpStatus code => exact Or.inl ⟨code, rfl, rfl⟩
  | exn n => exact Or.inr ⟨n, rfl, rfl⟩

/-!
## Aggregation data model and the infrastructure recommender

`models.py::ConcurrencyResult`, `recommend.py::InfraRecommender`.
-/

/-- `models.py::ConcurrencyResult` — one concurrency level's
aggregated statistics. -/
structure ConcurrencyResult where
  concurrency : Int
  ttft : LatencyStats
  tpot : Option LatencyStats := none
  itl : Option LatencyStats := none
  e2e_latency : LatencyStats
  throughput_tokens_per_sec : ℚ
  request_rate_per_sec : ℚ
  total_requests : Nat
  successful_requests : Nat
  failed_requests : Nat
  error_rate_percent : ℚ
  total_input_tokens : Nat
  total_output_tokens : Nat
  duration_seconds : ℚ
  goodput : Option GoodputResult := none
  deriving Repr, DecidableEq, Inhabited

namespace MetricsCalculator

/-- The per-result ITL contribution in the `itl_all` loop of
`aggregate_results` (`if r.itl_ms: itl_all.extend(r.itl_ms)`): an
absent vector contributes nothing, and the Python truthiness test also
skips an empty vector, which contributes nothing to `extend` anyway. -/
def itlContrib (r : RequestResult) : List ℚ := r.itl_ms.getD []

/-- `metrics.py::MetricsCalculator.aggregate_results`. -/
def aggregate_results (results : List RequestResult) (duration_seconds : ℚ)
    (concurrency : Int) (goodput_thresholds : Option GoodputThresholds) :
    ConcurrencyResult :=
  let successful := results.filter (fun r => r.success)
  let failed := results.filter (fun r => !r.success)
  let ttft_values := successful.map (fun r => r.ttft_ms)
  let e2e_values := successful.map (fun r => r.e2e_latency_ms)
  let tpot_values := successful.filterMap (fun r => r.tpot_ms)
  let itl_all := (successful.map itlContrib).flatten
  let total_input := (successful.map (fun r => r.input_tokens)).sum
  let total_output := (successful.map (fun r => r.output_tokens)).sum
  let ttft_stats := calculate_latency_stats ttft_values
  let e2e_stats := calculate_latency_stats e2e_values
  let tpot_stats := if tpot_values = [] then none
    else some (calculate_latency_stats tpot_values)
  let itl_stats := if itl_all = [] then none
    else some (calculate_latency_stats itl_all)
  let throughput := calculate_throughput total_output duration_seconds
  let request_rate := calculate_request_rate successful.length duration_seconds
  let error_rate := if results = [] then 0
    else (failed.length : ℚ) / (results.length : ℚ) * 100
  let goodput_result := goodput_thresholds.map
    (fun th => GoodputCalculator.calculate successful th)
  { concurrency := concurrency
    ttft := ttft_stats
    tpot := tpot_stats
    itl := itl_stats
    e2e_latency := e2e_stats
    throughput_tokens_per_sec := throughput
    request_rate_per_sec := request_rate
    total_requests := results.length
    successful_requests := successful.length
    failed_requests := failed.length
    error_rate_percent := error_rate
    total_input_tokens := total_input
    total_output_tokens := total_output
    duration_seconds := duration_seconds
    goodput := goodput_result }

end MetricsCalculator

/-- `models.py::WorkloadSpec` (the fields the recommender reads). -/
structure WorkloadSpec where
  peak_concurrency : Int
  avg_input_tokens : Nat := 256
  avg_output_tokens : Nat := 512
  ttft_target_ms : ℚ := 500
  tpot_target_ms : ℚ := 50
  goodput_target_percent : ℚ := 95
  deriving Repr, DecidableEq, Inhabited

/-- `models.py::InfraProfile`. -/
structure InfraProfile where
  gpu_model : String
  gpu_count : Int
  gpu_memory_gb : ℚ
  max_concurrency_at_slo : Int
  throughput_tokens_per_sec : ℚ
  goodput_at_max_concurrency : ℚ
  saturation_concurrency : Int
  saturation_goodput : ℚ
  deriving Repr, DecidableEq, Inhabited

/-- `models.py::InfraRecommendation` (numeric fields; the
`calculation_formula` and `reasoning` strings are presentation-only
and not modelled). -/
structure InfraRecommendation where
  model_name : String
  recommended_gpu : String
  recommended_count : Int
  tensor_parallelism : Int
  estimated_max_concurrency : Int
  estimated_goodput : ℚ
  estimated_throughput : ℚ
  headroom_percent : ℚ
  deriving Repr, DecidableEq, Inhabited

/-- Python `int(...)` applied to a float: truncation toward zero. -/
def pyInt (q : ℚ) : Int := if q < 0 then ⌈q⌉ else ⌊q⌋

namespace InfraRecommender

/-- `recommend.py::InfraRecommender.calculate_recommendation`.
(When `profile.gpu_count = 0` the source raises `ZeroDivisionError`
computing the `estimated_*` fields; here ℚ-division by zero yields 0.
The fields the claims address never divide by `gpu_count`.) -/
def calculate_recommendation (model_name : String) (workload : WorkloadSpec)
    (profile : InfraProfile) (headroom : ℚ) : InfraRecommendation :=
  let target := workload.peak_concurrency
  let max_at_slo : Int :=
    if profile.max_concurrency_at_slo ≤ 0 then 1 else profile.max_concurrency_at_slo
  let scaling_factor : ℚ := (target : ℚ) / (max_at_slo : ℚ)
  let raw_gpu_count := scaling_factor * (1 + headroom)
  let recommended_count : Int := max ⌈raw_gpu_count⌉ profile.gpu_count
  let tp0 : Int := 1
  let tp1 : Int := if recommended_count ≥ 4 then 2 else tp0
  let tp2 : Int := if recommended_count ≥ 8 then 4 else tp1
  let estimated_max_concurrency :=
    pyInt ((max_at_slo : ℚ) * (recommended_count : ℚ) / (profile.gpu_count : ℚ))
  let estimated_throughput :=
    profile.throughput_tokens_per_sec * (recommended_count : ℚ) / (profile.gpu_count : ℚ)
  let estimated_goodput :=
    min (profile.goodput_at_max_concurrency + headroom * 10) (999 / 10)
  { model_name := model_name
    recommended_gpu := profile.gpu_model
    recommended_count := recommended_count
    tensor_parallelism := tp2
    estimated_max_concurrency := estimated_max_concurrency
    estimated_goodput := estimated_goodput
    estimated_throughput := estimated_throughput
    headroom_percent := headroom * 100 }

end InfraRecommender

/-- C3.  `calculate_recommendation` computes
`raw = (peak / max_concurrency_at_slo) · (1 + headroom)` with 1
substituted for a non-positive `max_concurrency_at_slo`,
`recommended_count = max(⌈raw⌉, gpu_count)`, the tensor-parallelism
staircase 1/2/4 at cut points 4 and 8, and consequently
`recommended_count = gpu_count` whenever
`peak ≤ max_concurrency_at_slo`, `headroom = 0` and `gpu_count ≥ 1`. -/
theorem calculate_recommendation_scaling (mn : String) (w : WorkloadSpec)
    (p : InfraProfile) (headroom : ℚ) :
    (InfraRecommender.calculate_recommendation mn w p headroom).recommended_count =
      max ⌈((w.peak_concurrency : ℚ) /
          (((if p.max_concurrency_at_slo ≤ 0 then 1
              else p.max_concurrency_at_slo) : Int) : ℚ)) * (1 + headroom)⌉
        p.gpu_count ∧
    ((InfraRecommender.calculate_recommendation mn w p headroom).tensor_parallelism =
      if 8 ≤ (InfraRecommender.calculate_recommendation mn w p headroom).recommended_count
      then 4
      else if 4 ≤ (InfraRecommender.calculate_recommendation mn w p
          headroom).recommended_count
      then 2 else 1) ∧
    (w.peak_concurrency ≤ p.max_concurrency_at_slo → headroom = 0 →
      1 ≤ p.gpu_count →
      (InfraRecommender.calculate_recommendation mn w p headroom).recommended_count =
        p.gpu_count) := by
  refine ⟨rfl, ?_, ?_⟩
  · simp only [InfraRecommender.calculate_recommendation, ge_iff_le]
  · intro hpm h0 hg
    subst h0
    show max ⌈((w.peak_concurrency : ℚ) /
        (((if p.max_concurrency_at_slo ≤ 0 then 1
            else p.max_concurrency_at_slo) : Int) : ℚ)) * (1 + 0)⌉ p.gpu_count =
      p.gpu_count
    have hceil : ⌈((w.peak_concurrency : ℚ) /
        (((if p.max_concurrency_at_slo ≤ 0 then 1
            else p.max_concurrency_at_slo) : Int) : ℚ)) * (1 + 0)⌉ ≤ 1 := by
      rw [add_zero, mul_one]
      by_cases hm : p.max_concurrency_at_slo ≤ 0
      · simp only [hm, if_true]
        have : (w.peak_concurrency : ℚ) ≤ 0 := by
          exact_mod_cast le_trans hpm hm
        rw [Int.ceil_le]
        push_cast
        calc (w.peak_concurrency : ℚ) / ((1 : ℤ) : ℚ) = (w.peak_concurrency : ℚ) := by
              norm_num
          _ ≤ 0 := this
          _ ≤ 1 := by norm_num
      · simp only [hm, if_false]
        have hmp : (0 : ℚ) < (p.max_concurrency_at_slo : ℚ) := by
          exact_mod_cast lt_of_not_le hm
        rw [Int.ceil_le]
        push_cast
        rw [div_le_one hmp]
        exact_mod_cast hpm
    exact max_eq_right (le_trans hceil hg)

/-- C3 witness: `peak = 5 ≤ max_concurrency_at_slo = 10`,
`headroom = 0`, `gpu_count = 2` gives `recommended_count = 2`. -/
theorem calculate_recommendation_scaling_witness :
    (InfraRecommender.calculate_recommendation "m"
      { peak_concurrency := 5 }
      { gpu_model := "g", gpu_count := 2, gpu_memory_gb := 80,
        max_concurrency_at_slo := 10, throughput_tokens_per_sec := 1000,
        goodput_at_max_concurrency := 99, saturation_concurrency := 50,
        saturation_goodput := 95 } 0).recommended_count = 2 :=
  (calculate_recommendation_scaling "m" { peak_concurrency := 5 }
    { gpu_model := "g", gpu_count := 2, gpu_memory_gb := 80,
      max_concurrency_at_slo := 10, throughput_tokens_per_sec := 1000,
      goodput_at_max_concurrency := 99, saturation_concurrency := 50,
      saturation_goodput := 95 } 0).2.2 (by decide) rfl (by decide)

/-- `result.goodput.goodput_percent if result.goodput else 100.0`. -/
def gpOf (r : ConcurrencyResult) : ℚ :=
  match r.goodput with
  | some g => g.goodput_percent
  | none => 100

/-- The three saturation indicators of
`recommend.py::InfraRecommender._find_saturation_point`: goodput drop
of more than 10 points from the previous level, error rate above 5%,
or goodput below 90%. -/
def degraded (prev_goodput : ℚ) (r : ConcurrencyResult) : Bool :=
  decide (prev_goodput - gpOf r > 10) || decide (r.error_rate_percent > 5) ||
    decide (gpOf r < 90)

/-- Sort key of the `sorted(results, key=lambda r: r.concurrency)`
call. -/
def keyLe (a b : ConcurrencyResult) : Prop := a.concurrency ≤ b.concurrency

instance : DecidableRel keyLe := fun a b => Int.decLe a.concurrency b.concurrency

namespace InfraRecommender

/-- The `for i, result in enumerate(sorted_results)` loop of
`_find_saturation_point`, carrying `prev_goodput` and the previous
element; returns the answer chosen at the first degraded level, or
`none` when the loop runs to completion (in which case the caller
falls back to the last level). -/
def satGo (prev_goodput : ℚ) (prev : Option ConcurrencyResult) :
    List ConcurrencyResult → Option (Int × ℚ)
  | [] => none
  | r :: rest =>
    if degraded prev_goodput r then
      some (match prev with
            | some p => (p.concurrency, gpOf p)
            | none => (r.concurrency, gpOf r))
    else satGo (gpOf r) (some r) rest

/-- `recommend.py::InfraRecommender._find_saturation_point`. -/
def find_saturation_point (results : List ConcurrencyResult) : Int × ℚ :=
  match results with
  | [] => (1, 100)
  | [r] => (r.concurrency, gpOf r)
  | _ =>
    let sorted_results := List.insertionSort keyLe results
    match satGo 100 none sorted_results with
    | some ans => ans
    | none =>
      match sorted_results.getLast? with
      | some r => (r.concurrency, gpOf r)
      | none => (1, 100)

end InfraRecommender

/-- Index of the first degraded level, following the spec's words:
each level is paired with the previous level's goodput (100 for the
first level) and degradation is the first level at which any of the
three indicators fires. -/
def degradationIdx (results : List ConcurrencyResult) : Option Nat :=
  (results.zip (100 :: results.map gpOf)).findIdx? (fun rp => degraded rp.2 rp.1)

/-- Spec-side saturation point: the level just before the first
degraded level (the first level itself if degradation starts there),
or the highest tested level when nothing degrades. -/
def saturation_spec (results : List ConcurrencyResult) : Int × ℚ :=
  match degradationIdx results with
  | some 0 =>
    match results.head? with
    | some r => (r.concurrency, gpOf r)
    | none => (1, 100)
  | some (i + 1) =>
    ((results.getD i default).concurrency, gpOf (results.getD i default))
  | none =>
    match results.getLast? with
    | some r => (r.concurrency, gpOf r)
    | none => (1, 100)

lemma satGo_eq_degradationScan :
    ∀ (l : List ConcurrencyResult) (prevG : ℚ) (prev : Option ConcurrencyResult),
      InfraRecommender.satGo prevG prev l =
        match (l.zip (prevG :: l.map gpOf)).findIdx? (fun rp => degraded rp.2 rp.1) with
        | none => none
        | some 0 =>
          some (match prev, l with
                | some p, _ => (p.concurrency, gpOf p)
                | none, r :: _ => (r.concurrency, gpOf r)
                | none, [] => (1, 100))
        | some (i + 1) =>
          some ((l.getD i default).concurrency, gpOf (l.getD i default)) := by
  intro l
  induction l with
  | nil => intro prevG prev; rfl
  | cons r rest ih =>
    intro prevG prev
    show InfraRecommender.satGo prevG prev (r :: rest) = _
    rw [InfraRecommender.satGo.eq_def]
    simp only []
    by_cases hd : degraded prevG r
    · simp only [hd, if_true, List.zip_cons_cons, List.findIdx?_cons, Option.map]
      cases prev <;> rfl
    · simp only [hd, if_false, ih (gpOf r) (some r), List.zip_cons_cons,
        List.findIdx?_cons, List.map_cons]
      rcases hscan : (rest.zip (gpOf r :: rest.map gpOf)).findIdx?
          (fun rp => degraded rp.2 rp.1) with _ | i
      · simp [hd, hscan]
      · cases i with
        | zero => simp [hd, hscan]
        | succ j => simp [hd, hscan]

/-- All-zero latency statistics (timings are irrelevant to the
saturation scan). -/
def zeroStats : LatencyStats :=
  { min := 0, max := 0, mean := 0, median := 0, p50 := 0, p95 := 0, p99 := 0, std_sq := 0 }

/-- One staircase level with the given concurrency and goodput. -/
def mkLevel (c : Int) (gp : ℚ) : ConcurrencyResult :=
  { concurrency := c, ttft := zeroStats, e2e_latency := zeroStats,
    throughput_tokens_per_sec := 0, request_rate_per_sec := 0,
    total_requests := 50, successful_requests := 50, failed_requests := 0,
    error_rate_percent := 0, total_input_tokens := 0, total_output_tokens := 0,
    duration_seconds := 1,
    goodput := some { thresholds := {}, satisfied_requests := 0,
                      total_requests := 50, goodput_percent := gp } }

/-- The spec's saturation seed scenario: goodput percentages
`[100, 98, 95.8, 84.4, 50.0]` over a staircase of concurrencies. -/
def staircaseResults : List ConcurrencyResult :=
  [mkLevel 1 100, mkLevel 10 98, mkLevel 50 (958 / 10),
   mkLevel 100 (844 / 10), mkLevel 200 50]


/-- C4.  For every non-empty list of `ConcurrencyResult`s already
ordered by concurrency ascending, `_find_saturation_point` returns the
level just before the first degraded one — degradation being a goodput
drop of more than 10 points from the previous level, an error rate
above 5%, or goodput below 90% — the first level itself when
degradation starts there, and the highest tested level when nothing
degrades; on the staircase `[100, 98, 95.8, 84.4, 50.0]` it returns
the third level (concurrency 50, goodput 95.8). -/
theorem find_saturation_point_matches_spec :
    (∀ results : List ConcurrencyResult, results ≠ [] →
      List.Sorted keyLe results →
      InfraRecommender.find_saturation_point results = saturation_spec results) ∧
    InfraRecommender.find_saturation_point staircaseResults = (50, 958 / 10) := by
  have hmain : ∀ results : List ConcurrencyResult, results ≠ [] →
      List.Sorted keyLe results →
      InfraRecommender.find_saturation_point results = saturation_spec results := by
    intro results hne hs
    match results with
    | [] => exact absurd rfl hne
    | [a] =>
      have h1 : InfraRecommender.find_saturation_point [a] = (a.concurrency, gpOf a) := rfl
      rw [h1]
      unfold saturation_spec degradationIdx
      by_cases h : degraded 100 a
      · simp [List.findIdx?_cons, h]
      · simp [List.findIdx?_cons, h]
    | a :: b :: rest =>
      have h1 : InfraRecommender.find_saturation_point (a :: b :: rest) =
          match InfraRecommender.satGo 100 none
              (List.insertionSort keyLe (a :: b :: rest)) with
          | some ans => ans
          | none =>
            match (List.insertionSort keyLe (a :: b :: rest)).getLast? with
            | some r => (r.concurrency, gpOf r)
            | none => (1, 100) := rfl
      rw [h1, hs.insertionSort_eq, satGo_eq_degradationScan]
      unfold saturation_spec degradationIdx
      rcases hscan : ((a :: b :: rest).zip
          (100 :: (a :: b :: rest).map gpOf)).findIdx?
            (fun rp => degraded rp.2 rp.1) with _ | (_ | i) <;>
        (rw [hscan]; try simp)
  refine ⟨hmain, ?_⟩
  have hsort : List.Sorted keyLe staircaseResults := by decide
  have h1 : InfraRecommender.find_saturation_point staircaseResults =
      match InfraRecommender.satGo 100 none
          (List.insertionSort keyLe staircaseResults) with
      | some ans => ans
      | none =>
        match (List.insertionSort keyLe staircaseResults).getLast? with
        | some r => (r.concurrency, gpOf r)
        | none => (1, 100) := rfl
  have h2 : InfraRecommender.satGo 100 none staircaseResults = some (50, 958 / 10) := by
    rw [show staircaseResults = [mkLevel 1 100, mkLevel 10 98, mkLevel 50 (958 / 10),
      mkLevel 100 (844 / 10), mkLevel 200 50] from rfl]
    rw [InfraRecommender.satGo]
    rw [if_neg (by norm_num [degraded, gpOf, mkLevel, zeroStats])]
    rw [InfraRecommender.satGo]
    rw [if_neg (by norm_num [degraded, gpOf, mkLevel, zeroStats])]
    rw [InfraRecommender.satGo]
    rw [if_neg (by norm_num [degraded, gpOf, mkLevel, zeroStats])]
    rw [InfraRecommender.satGo]
    rw [if_pos (by norm_num [degraded, gpOf, mkLevel, zeroStats])]
    rfl
  rw [h1, hsort.insertionSort_eq, h2]

/-- C4 witness: the general part applied to the concrete staircase,
whose hypotheses (non-emptiness, ascending order) are discharged by
computation. -/
theorem find_saturation_point_matches_spec_witness :
    InfraRecommender.find_saturation_point staircaseResults =
      saturation_spec staircaseResults :=
  find_saturation_point_matches_spec.1 staircaseResults (by decide) (by decide)

/-!
## Metrics validator

`validator.py::MetricsValidator`.  The Prometheus scrape and the Docker
log collection are I/O; the validator's arithmetic is embedded over
snapshots given as values.  A missing snapshot yields a missing
sub-validation (`none`), exactly as `_validate_prometheus` and
`_validate_docker_logs` return `None`.
-/

/-- `validator.py::VLLMMetricsSnapshot`. -/
structure VLLMMetricsSnapshot where
  request_success_total : Int := 0
  generation_tokens_total : Int := 0
  ttft_sum : ℚ := 0
  ttft_count : Int := 0
  deriving Repr, DecidableEq, Inhabited

/-- `models.py::MetricComparison`. -/
structure MetricComparison where
  metric_name : String
  client_value : ℚ
  server_value : ℚ
  difference_percent : ℚ
  passed : Bool
  deriving Repr, DecidableEq, Inhabited

/-- `models.py::PrometheusValidation` (warnings are presentation-only
strings and not modelled). -/
structure PrometheusValidation where
  passed : Bool
  comparisons : List MetricComparison := []
  deriving Repr, DecidableEq, Inhabited

/-- `models.py::DockerLogValidation` (only the fields `validate` reads). -/
structure DockerLogValidation where
  passed : Bool
  comparisons : List MetricComparison := []
  deriving Repr, DecidableEq, Inhabited

/-- `models.py::ValidationResult` (the fields `validate` writes). -/
structure ValidationResult where
  overall_passed : Bool
  tolerance : ℚ
  prometheus_validation : Option PrometheusValidation := none
  prometheus_available : Bool := false
  docker_log_validation : Option DockerLogValidation := none
  docker_available : Bool := false
  all_comparisons : List MetricComparison := []
  deriving Repr, DecidableEq, Inhabited

namespace MetricsValidator

/-- The `tolerance: float = 0.05` default of
`MetricsValidator.__init__` (5%), used for request and token counts. -/
def default_tolerance : ℚ := 5 / 100

/-- The explicit 10% tolerance the source passes for the TTFT
comparison (`tolerance=0.10`). -/
def ttft_tolerance : ℚ := 10 / 100

/-- `validator.py::MetricsValidator._is_within_tolerance` with the
validator's default tolerance `tol`: `server = 0` passes iff
`client = 0`, otherwise `|client − server| / server ≤ tolerance`. -/
def is_within_tolerance (tol : ℚ) (client server : ℚ)
    (tolerance : Option ℚ := none) : Bool :=
  let t := tolerance.getD tol
  if server = 0 then decide (client = 0)
  else decide (|client - server| / server ≤ t)

/-- `validator.py::MetricsValidator._calc_diff_percent`. -/
def calc_diff_percent (client server : ℚ) : ℚ :=
  if server = 0 then (if client = 0 then 0 else 100)
  else |client - server| / server * 100

/-- `validator.py::MetricsValidator._validate_prometheus` on two
present snapshots. -/
def validate_prometheus_snapshots (tol : ℚ)
    (before after : VLLMMetricsSnapshot)
    (client_requests : Int) (client_avg_ttft_ms : ℚ)
    (client_total_tokens : Int) : PrometheusValidation :=
  let delta_requests := after.request_success_total - before.request_success_total
  let delta_tokens := after.generation_tokens_total - before.generation_tokens_total
  let ttft_sum_delta := after.ttft_sum - before.ttft_sum
  let ttft_count_delta := after.ttft_count - before.ttft_count
  let server_avg_ttft_ms : ℚ :=
    if ttft_count_delta > 0 then ttft_sum_delta / (ttft_count_delta : ℚ) * 1000 else 0
  let request_passed :=
    is_within_tolerance tol (client_requests : ℚ) (delta_requests : ℚ)
  let ttft_passed :=
    is_within_tolerance tol client_avg_ttft_ms server_avg_ttft_ms (some ttft_tolerance)
  let token_passed :=
    is_within_tolerance tol (client_total_tokens : ℚ) (delta_tokens : ℚ)
  { passed := request_passed && ttft_passed && token_passed
    comparisons :=
      [ { metric_name := "Request Count", client_value := (client_requests : ℚ),
          server_value := (delta_requests : ℚ),
          difference_percent := calc_diff_percent (client_requests : ℚ) (delta_requests : ℚ),
          passed := request_passed },
        { metric_name := "Avg TTFT (ms)", client_value := client_avg_ttft_ms,
          server_value := server_avg_ttft_ms,
          difference_percent := calc_diff_percent client_avg_ttft_ms server_avg_ttft_ms,
          passed := ttft_passed },
        { metric_name := "Total Tokens", client_value := (client_total_tokens : ℚ),
          server_value := (delta_tokens : ℚ),
          difference_percent := calc_diff_percent (client_total_tokens : ℚ) (delta_tokens : ℚ),
          passed := token_passed } ] }

/-- `_validate_prometheus` returns `None` when either snapshot is
missing. -/
def validate_prometheus (tol : ℚ) (before after : Option VLLMMetricsSnapshot)
    (client_requests : Int) (client_avg_ttft_ms : ℚ)
    (client_total_tokens : Int) : Option PrometheusValidation :=
  match before, after with
  | some b, some a =>
    some (validate_prometheus_snapshots tol b a client_requests client_avg_ttft_ms
      client_total_tokens)
  | _, _ => none

/-- `validator.py::MetricsValidator.validate`: builds the Prometheus
sub-validation from the stored snapshots, receives the Docker
sub-validation (an I/O product, `None` when the collector or its
metrics are missing), and conjoins the `passed` flags of the present
sub-validations into `overall_passed`. -/
def validate (tol : ℚ) (before after : Option VLLMMetricsSnapshot)
    (client_requests : Int) (client_avg_ttft_ms : ℚ)
    (client_total_tokens : Int)
    (docker_validation : Option DockerLogValidation) : ValidationResult :=
  let prometheus_validation :=
    validate_prometheus tol before after client_requests client_avg_ttft_ms
      client_total_tokens
  let all_passed0 := true
  let all_passed1 :=
    match prometheus_validation with
    | some pv => all_passed0 && pv.passed
    | none => all_passed0
  let all_passed :=
    match docker_validation with
    | some dv => all_passed1 && dv.passed
    | none => all_passed1
  { overall_passed := all_passed
    tolerance := tol
    prometheus_validation := prometheus_validation
    prometheus_available := prometheus_validation.isSome
    docker_log_validation := docker_validation
    docker_available := docker_validation.isSome
    all_comparisons :=
      (match prometheus_validation with
       | some pv => pv.comparisons
       | none => []) ++
      (match docker_validation with
       | some dv => dv.comparisons
       | none => []) }

end MetricsValidator

/-- C5.  A validator comparison passes iff
`|client − server| / server ≤ tolerance`, with `server = 0` passing iff
`client = 0`; the Prometheus sub-validation applies the 5% default to
the request and token counts and 10% to TTFT; the overall result is
passed iff every present sub-validation passed, so missing snapshots or
sub-validations never make `overall_passed` false. -/
theorem validator_tolerance_and_overall :
    (∀ (tol client server : ℚ) (t : Option ℚ),
      MetricsValidator.is_within_tolerance tol client server t = true ↔
        (if server = 0 then client = 0
         else |client - server| / server ≤ t.getD tol)) ∧
    (∀ (b a : VLLMMetricsSnapshot) (cr : Int) (ct : ℚ) (ctk : Int),
      (MetricsValidator.validate_prometheus_snapshots
          MetricsValidator.default_tolerance b a cr ct ctk).passed = true ↔
        ((if ((a.request_success_total - b.request_success_total : Int) : ℚ) = 0
          then (cr : ℚ) = 0
          else |(cr : ℚ) - ((a.request_success_total - b.request_success_total : Int) : ℚ)| /
              ((a.request_success_total - b.request_success_total : Int) : ℚ) ≤ 5 / 100) ∧
         (if (if a.ttft_count - b.ttft_count > 0
              then (a.ttft_sum - b.ttft_sum) / ((a.ttft_count - b.ttft_count : Int) : ℚ) * 1000
              else 0) = 0
          then ct = 0
          else |ct - (if a.ttft_count - b.ttft_count > 0
              then (a.ttft_sum - b.ttft_sum) / ((a.ttft_count - b.ttft_count : Int) : ℚ) * 1000
              else 0)| /
            (if a.ttft_count - b.ttft_count > 0
             then (a.ttft_sum - b.ttft_sum) / ((a.ttft_count - b.ttft_count : Int) : ℚ) * 1000
             else 0) ≤ 10 / 100) ∧
         (if ((a.generation_tokens_total - b.generation_tokens_total : Int) : ℚ) = 0
          then (ctk : ℚ) = 0
          else |(ctk : ℚ) - ((a.generation_tokens_total - b.generation_tokens_total : Int) : ℚ)| /
              ((a.generation_tokens_total - b.generation_tokens_total : Int) : ℚ) ≤ 5 / 100))) ∧
    (∀ (tol : ℚ) (before after : Option VLLMMetricsSnapshot) (cr : Int) (ct : ℚ)
        (ctk : Int) (dv : Option DockerLogValidation),
      ((MetricsValidator.validate tol before after cr ct ctk dv).overall_passed = true ↔
        ((∀ pv ∈ MetricsValidator.validate_prometheus tol before after cr ct ctk,
            pv.passed = true) ∧
         (∀ d ∈ dv, d.passed = true)))) ∧
    (∀ (tol : ℚ) (cr : Int) (ct : ℚ) (ctk : Int),
      (MetricsValidator.validate tol none none cr ct ctk none).overall_passed = true) := by
  have htol : ∀ (tol client server : ℚ) (t : Option ℚ),
      MetricsValidator.is_within_tolerance tol client server t = true ↔
        (if server = 0 then client = 0
         else |client - server| / server ≤ t.getD tol) := by
    intro tol client server t
    unfold MetricsValidator.is_within_tolerance
    by_cases h : server = 0 <;> simp [h]
  refine ⟨htol, ?_, ?_, ?_⟩
  · intro b a cr ct ctk
    show (MetricsValidator.is_within_tolerance MetricsValidator.default_tolerance _ _ _ &&
        MetricsValidator.is_within_tolerance MetricsValidator.default_tolerance _ _ _ &&
        MetricsValidator.is_within_tolerance MetricsValidator.default_tolerance _ _ _) =
          true ↔ _
    rw [Bool.and_eq_true, Bool.and_eq_true, htol, htol, htol]
    unfold MetricsValidator.default_tolerance MetricsValidator.ttft_tolerance
    simp only [Option.getD_some, Option.getD_none]
    tauto
  · intro tol before after cr ct ctk dv
    cases before <;> cases after <;> cases dv <;>
      simp [MetricsValidator.validate, MetricsValidator.validate_prometheus]
  · intro tol cr ct ctk
    rfl

/-!
## Load generator: rolling-metrics emission cadence

`load_generator.py::LoadGenerator._run_concurrent_requests` and
`LoadGenerator._calculate_partial_metrics` (request-count mode).  The
completion path (buffer append, counter increment, callback) runs
under one lock, so completions form a sequence; the embedding folds
over the results in completion order.  Only the metric-snapshot
payloads are modelled (every completion also emits a request log).
-/

namespace LoadGenerator

/-- `metrics_interval = max(10, num_requests // 20)`. -/
def metrics_interval (num_requests : Nat) : Nat := max 10 (num_requests / 20)

/-- The dictionary built by `_calculate_partial_metrics` (the
`timestamp` wall-clock field is not modelled). -/
structure RollingMetrics where
  concurrency : Int
  completed : Nat
  success_count : Nat
  error_count : Nat
  ttft_avg : ℚ
  ttft_p50 : ℚ
  e2e_avg : ℚ
  throughput_current : ℚ
  deriving Repr, DecidableEq, Inhabited

/-- `load_generator.py::LoadGenerator._calculate_partial_metrics`.
`ttft_ms`/`e2e_latency_ms` are non-nullable floats, so the source's
`is not None` filters keep every successful result; the
`if r.output_tokens` truthiness test only skips zero summands.
`ttft_p50` is the naive upper median `sorted(ttfts)[len(ttfts) // 2]`. -/
def calculate_rolling_metrics (results : List RequestResult) (elapsed : ℚ)
    (concurrency : Int) : Option RollingMetrics :=
  let successful := results.filter (fun r => r.success)
  if successful = [] then none
  else
    let ttfts := successful.map (fun r => r.ttft_ms)
    let e2es := successful.map (fun r => r.e2e_latency_ms)
    let total_tokens := (successful.map (fun r => r.output_tokens)).sum
    some
      { concurrency := concurrency
        completed := results.length
        success_count := successful.length
        error_count := results.length - successful.length
        ttft_avg := if ttfts = [] then 0 else ttfts.sum / (ttfts.length : ℚ)
        ttft_p50 := if ttfts = [] then 0
          else (MetricsCalculator.sortedOf ttfts).getD (ttfts.length / 2) 0
        e2e_avg := if e2es = [] then 0 else e2es.sum / (e2es.length : ℚ)
        throughput_current := if elapsed > 0 then (total_tokens : ℚ) / elapsed else 0 }

/-- The completion loop of `_run_concurrent_requests`, restricted to
its metric-snapshot emissions: each completion appends to the shared
buffer and increments `completed`; when
`completed − last_metrics_at ≥ metrics_interval` a snapshot of the
current buffer is emitted and `last_metrics_at` resets.  `elapsed c`
is the wall time observed at the `c`-th completion. -/
def emitGo (interval : Nat) (concurrency : Int) (elapsed : Nat → ℚ)
    (buffer : List RequestResult) (completed last_metrics_at : Nat) :
    List RequestResult → List (Nat × Option RollingMetrics)
  | [] => []
  | r :: rest =>
    let buffer1 := buffer ++ [r]
    let completed1 := completed + 1
    if interval ≤ completed1 - last_metrics_at then
      (completed1, calculate_rolling_metrics buffer1 (elapsed completed1) concurrency) ::
        emitGo interval concurrency elapsed buffer1 completed1 completed1 rest
    else
      emitGo interval concurrency elapsed buffer1 completed1 last_metrics_at rest

/-- Metric snapshots of one request-count-mode batch whose results
complete in the order given by `order`. -/
def metric_snapshots (concurrency : Int) (elapsed : Nat → ℚ)
    (order : List RequestResult) : List (Nat × Option RollingMetrics) :=
  emitGo (metrics_interval order.length) concurrency elapsed [] 0 0 order

end LoadGenerator

lemma emitGo_closed_form :
    ∀ (n : Nat) (rest : List RequestResult), rest.length = n →
    ∀ (i : Nat), 0 < i →
    ∀ (conc : Int) (el : Nat → ℚ) (buffer : List RequestResult) (l d : Nat), d < i →
      LoadGenerator.emitGo i conc el buffer (l + d) l rest =
        (List.range ((d + n) / i)).map (fun k =>
          (l + (k + 1) * i,
           LoadGenerator.calculate_rolling_metrics
             (buffer ++ rest.take ((k + 1) * i - d)) (el (l + (k + 1) * i)) conc)) := by
  intro n
  induction n with
  | zero =>
    intro rest hrest i hi conc el buffer l d hd
    rw [List.length_eq_zero.mp hrest]
    have : (d + 0) / i = 0 := Nat.div_eq_of_lt (by omega)
    rw [this]
    rfl
  | succ m ih =>
    intro rest hrest i hi conc el buffer l d hd
    match rest with
    | [] => simp at hrest
    | r :: rest1 =>
      have hlen : rest1.length = m := by simpa using hrest
      rw [LoadGenerator.emitGo]
      by_cases hsnap : i ≤ l + d + 1 - l
      · have hdi : d + 1 = i := by omega
        rw [if_pos hsnap]
        have h2 := ih rest1 hlen i hi conc el (buffer ++ [r]) (l + d + 1) 0 hi
        simp only [Nat.add_zero, Nat.zero_add] at h2
        rw [h2]
        have hrange : (d + (m + 1)) / i = m / i + 1 := by
          rw [show d + (m + 1) = m + i by omega, Nat.add_div_right m hi]
        rw [hrange, List.range_succ_eq_map, List.map_cons, List.map_map]
        congr 1
        · have hone : (0 + 1) * i - d = 1 := by omega
          have hl : l + d + 1 = l + (0 + 1) * i := by omega
          rw [hone, hl]
          rfl
        · apply List.map_congr_left
          intro k hk
          simp only [Function.comp, Nat.succ_eq_add_one]
          have hm : (k + 1 + 1) * i = (k + 1) * i + i := by ring
          have htake : (k + 1 + 1) * i - d = (k + 1) * i + 1 := by omega
          have hfst : l + d + 1 + (k + 1) * i = l + (k + 1 + 1) * i := by omega
          rw [htake, List.take_succ_cons, ← hfst]
          simp [List.append_assoc]
      · rw [if_neg hsnap]
        have h2 := ih rest1 hlen i hi conc el (buffer ++ [r]) l (d + 1) (by omega)
        rw [show l + (d + 1) = l + d + 1 by omega] at h2
        rw [h2, show d + 1 + m = d + (m + 1) by omega]
        apply List.map_congr_left
        intro k hk
        have hm : (k + 1) * i = k * i + i := by ring
        have htake : (k + 1) * i - d = ((k + 1) * i - (d + 1)) + 1 := by omega
        rw [htake, List.take_succ_cons]
        simp [List.append_assoc]

/-- C8 amended.  In request-count mode with `N` completions, the load
generator delivers a rolling metric snapshot exactly at the completion
counts that are positive multiples of `max(10, N / 20)` (none at run
end unless `N` is such a multiple), each snapshot computed by
`_calculate_partial_metrics` from the current result buffer — the
first `c` completed results — at the wall time of that completion. -/
theorem rolling_metrics_cadence (conc : Int) (el : Nat → ℚ)
    (order : List RequestResult) :
    LoadGenerator.metric_snapshots conc el order =
      (List.range (order.length / LoadGenerator.metrics_interval order.length)).map
        (fun k =>
          ((k + 1) * LoadGenerator.metrics_interval order.length,
           LoadGenerator.calculate_rolling_metrics
             (order.take ((k + 1) * LoadGenerator.metrics_interval order.length))
             (el ((k + 1) * LoadGenerator.metrics_interval order.length)) conc)) := by
  have hi : 0 < LoadGenerator.metrics_interval order.length := by
    simp only [LoadGenerator.metrics_interval]
    omega
  have h := emitGo_closed_form order.length order rfl
    (LoadGenerator.metrics_interval order.length) hi conc el [] 0 0 hi
  simp only [Nat.add_zero, Nat.zero_add, Nat.sub_zero, List.nil_append] at h
  exact h

/-- A successful synthetic request result. -/
def sampleSuccess : RequestResult :=
  { request_id := 0, ttft_ms := 1, e2e_latency_ms := 2,
    input_tokens := 1, output_tokens := 1 }

/-- C8 counterexample.  With `N = 25` requests the interval is
`max(10, 25 / 20) = 10`, so snapshots are delivered at completions 10
and 20 only: no additional snapshot is delivered at run end
(completion 25), contrary to the claim. -/
theorem rolling_metrics_no_snapshot_at_run_end :
    (LoadGenerator.metric_snapshots 1 (fun _ => 1)
        (List.replicate 25 sampleSuccess)).map Prod.fst = [10, 20] ∧
    25 ∉ (LoadGenerator.metric_snapshots 1 (fun _ => 1)
        (List.replicate 25 sampleSuccess)).map Prod.fst := by
  have h : (LoadGenerator.metric_snapshots 1 (fun _ => 1)
      (List.replicate 25 sampleSuccess)).map Prod.fst = [10, 20] := rfl
  refine ⟨h, ?_⟩
  rw [h]
  decide

/-!
## Ordering of the latency statistics (percentile chain)
-/

namespace MetricsCalculator

lemma sortedOf_sorted (l : List ℚ) : List.Sorted (· ≤ ·) (sortedOf l) :=
  List.sorted_insertionSort _ l

lemma sortedOf_perm (l : List ℚ) : List.Perm (sortedOf l) l :=
  List.perm_insertionSort _ l

lemma sortedOf_length (l : List ℚ) : (sortedOf l).length = l.length :=
  (sortedOf_perm l).length_eq

lemma sorted_getD_mono {s : List ℚ} (hs : List.Sorted (· ≤ ·) s) {i j : Nat}
    (hij : i ≤ j) (hj : j < s.length) : s.getD i 0 ≤ s.getD j 0 := by
  have hi : i < s.length := lt_of_le_of_lt hij hj
  rw [List.getD_eq_getElem s 0 hi, List.getD_eq_getElem s 0 hj]
  have h := List.Sorted.rel_get_of_le hs
    (show (⟨i, hi⟩ : Fin s.length) ≤ ⟨j, hj⟩ from hij)
  simpa [List.get_eq_getElem] using h

lemma sorted_getD_zero_le {s : List ℚ} (hs : List.Sorted (· ≤ ·) s) :
    ∀ y ∈ s, s.getD 0 0 ≤ y := by
  intro y hy
  obtain ⟨i, hi, rfl⟩ := List.mem_iff_getElem.mp hy
  rw [← List.getD_eq_getElem s 0 hi]
  exact sorted_getD_mono hs (Nat.zero_le i) hi

lemma sorted_le_getD_last {s : List ℚ} (hs : List.Sorted (· ≤ ·) s) :
    ∀ y ∈ s, y ≤ s.getD (s.length - 1) 0 := by
  intro y hy
  obtain ⟨i, hi, rfl⟩ := List.mem_iff_getElem.mp hy
  rw [← List.getD_eq_getElem s 0 hi]
  exact sorted_getD_mono hs (by omega) (by omega)

lemma foldl_min_le {xs : List ℚ} {a : ℚ} : ∀ x ∈ a :: xs, xs.foldl min a ≤ x := by
  induction xs generalizing a with
  | nil => intro x hx; simp at hx; simp [hx]
  | cons y ys ih =>
    intro x hx
    rcases List.mem_cons.mp hx with rfl | hx1
    · calc ys.foldl min (min x y) ≤ min x y := ih _ (List.mem_cons_self _ _)
        _ ≤ x := min_le_left _ _
    · rcases List.mem_cons.mp hx1 with rfl | hx2
      · calc ys.foldl min (min a x) ≤ min a x := ih _ (List.mem_cons_self _ _)
          _ ≤ x := min_le_right _ _
      · exact ih _ (List.mem_cons_of_mem _ hx2)

lemma foldl_min_mem {xs : List ℚ} {a : ℚ} : xs.foldl min a ∈ a :: xs := by
  induction xs generalizing a with
  | nil => simp
  | cons y ys ih =>
    have h : ys.foldl min (min a y) ∈ (min a y) :: ys := ih
    rcases List.mem_cons.mp h with h1 | h1
    · rcases min_choice a y with h2 | h2 <;> rw [List.foldl_cons, h1, h2] <;> simp
    · simp only [List.foldl_cons]
      exact List.mem_cons_of_mem _ (List.mem_cons_of_mem _ h1)

lemma foldl_le_max {xs : List ℚ} {a : ℚ} : ∀ x ∈ a :: xs, x ≤ xs.foldl max a := by
  induction xs generalizing a with
  | nil => intro x hx; simp at hx; simp [hx]
  | cons y ys ih =>
    intro x hx
    rcases List.mem_cons.mp hx with rfl | hx1
    · calc x ≤ max x y := le_max_left _ _
        _ ≤ ys.foldl max (max x y) := ih _ (List.mem_cons_self _ _)
    · rcases List.mem_cons.mp hx1 with rfl | hx2
      · calc x ≤ max a x := le_max_right _ _
          _ ≤ ys.foldl max (max a x) := ih _ (List.mem_cons_self _ _)
      · exact ih _ (List.mem_cons_of_mem _ hx2)

lemma foldl_max_mem {xs : List ℚ} {a : ℚ} : xs.foldl max a ∈ a :: xs := by
  induction xs generalizing a with
  | nil => simp
  | cons y ys ih =>
    have h : ys.foldl max (max a y) ∈ (max a y) :: ys := ih
    rcases List.mem_cons.mp h with h1 | h1
    · rcases max_choice a y with h2 | h2 <;> rw [List.foldl_cons, h1, h2] <;> simp
    · simp only [List.foldl_cons]
      exact List.mem_cons_of_mem _ (List.mem_cons_of_mem _ h1)

lemma npMin_mem {l : List ℚ} (h : l ≠ []) : npMin l ∈ l := by
  match l with
  | x :: xs => exact foldl_min_mem

lemma npMin_le {l : List ℚ} : ∀ x ∈ l, npMin l ≤ x := by
  match l with
  | [] => intro x hx; simp at hx
  | y :: ys => exact foldl_min_le

lemma npMax_mem {l : List ℚ} (h : l ≠ []) : npMax l ∈ l := by
  match l with
  | x :: xs => exact foldl_max_mem

lemma le_npMax {l : List ℚ} : ∀ x ∈ l, x ≤ npMax l := by
  match l with
  | [] => intro x hx; simp at hx
  | y :: ys => exact foldl_le_max

lemma npMin_eq_sorted_head {l : List ℚ} (h : l ≠ []) :
    npMin l = (sortedOf l).getD 0 0 := by
  have hmem : (sortedOf l).getD 0 0 ∈ sortedOf l := by
    have hlen : 0 < (sortedOf l).length := by
      rw [sortedOf_length]
      exact List.length_pos.mpr h
    rw [List.getD_eq_getElem _ 0 hlen]
    exact List.getElem_mem hlen
  refine le_antisymm (npMin_le _ ((sortedOf_perm l).mem_iff.mp hmem)) ?_
  exact sorted_getD_zero_le (sortedOf_sorted l) _
    ((sortedOf_perm l).mem_iff.mpr (npMin_mem h))

lemma npMax_eq_sorted_last {l : List ℚ} (h : l ≠ []) :
    npMax l = (sortedOf l).getD ((sortedOf l).length - 1) 0 := by
  have hmem : (sortedOf l).getD ((sortedOf l).length - 1) 0 ∈ sortedOf l := by
    have hlen : (sortedOf l).length - 1 < (sortedOf l).length := by
      rw [sortedOf_length]
      have := List.length_pos.mpr h
      omega
    rw [List.getD_eq_getElem _ 0 hlen]
    exact List.getElem_mem hlen
  refine le_antisymm ?_ (le_npMax _ ((sortedOf_perm l).mem_iff.mp hmem))
  exact sorted_le_getD_last (sortedOf_sorted l) _
    ((sortedOf_perm l).mem_iff.mpr (npMax_mem h))

end MetricsCalculator

namespace MetricsCalculator

lemma length_pos_of_pos_le {s : List ℚ} {p : ℚ} (hp0 : 0 ≤ p)
    (hpn : p ≤ (s.length : ℚ) - 1) : 1 ≤ s.length := by
  rcases Nat.eq_zero_or_pos s.length with h0 | h1
  · rw [h0] at hpn
    push_cast at hpn
    linarith
  · exact h1

lemma interpolate_lb {s : List ℚ} (hs : List.Sorted (· ≤ ·) s) {p : ℚ}
    (hp0 : 0 ≤ p) (hpn : p ≤ (s.length : ℚ) - 1) :
    s.getD (Int.toNat ⌊p⌋) 0 ≤ interpolate s p := by
  have hf0 : (0 : ℤ) ≤ ⌊p⌋ := Int.floor_nonneg.2 hp0
  have hc : ⌈p⌉ ≤ (s.length : ℤ) - 1 := by
    rw [Int.ceil_le]
    push_cast
    linarith
  have hcf : ⌊p⌋ ≤ ⌈p⌉ := Int.floor_le_ceil p
  have hn1 : 1 ≤ s.length := length_pos_of_pos_le hp0 hpn
  have hidx : Int.toNat ⌈p⌉ < s.length := by omega
  have hle : Int.toNat ⌊p⌋ ≤ Int.toNat ⌈p⌉ := by omega
  have hmono := sorted_getD_mono hs hle hidx
  have hfrac : 0 ≤ p - (⌊p⌋ : ℚ) := by
    have := Int.floor_le p
    linarith
  simp only [interpolate]
  nlinarith [mul_nonneg hfrac (sub_nonneg.2 hmono)]

lemma interpolate_ub {s : List ℚ} (hs : List.Sorted (· ≤ ·) s) {p : ℚ}
    (hp0 : 0 ≤ p) (hpn : p ≤ (s.length : ℚ) - 1) :
    interpolate s p ≤ s.getD (Int.toNat ⌈p⌉) 0 := by
  have hf0 : (0 : ℤ) ≤ ⌊p⌋ := Int.floor_nonneg.2 hp0
  have hc : ⌈p⌉ ≤ (s.length : ℤ) - 1 := by
    rw [Int.ceil_le]
    push_cast
    linarith
  have hcf : ⌊p⌋ ≤ ⌈p⌉ := Int.floor_le_ceil p
  have hn1 : 1 ≤ s.length := length_pos_of_pos_le hp0 hpn
  have hidx : Int.toNat ⌈p⌉ < s.length := by omega
  have hle : Int.toNat ⌊p⌋ ≤ Int.toNat ⌈p⌉ := by omega
  have hmono := sorted_getD_mono hs hle hidx
  have hfrac1 : p - (⌊p⌋ : ℚ) ≤ 1 := by
    have := Int.lt_floor_add_one p
    linarith
  simp only [interpolate]
  nlinarith [mul_nonneg (by linarith : (0 : ℚ) ≤ 1 - (p - (⌊p⌋ : ℚ)))
    (sub_nonneg.2 hmono)]

lemma interpolate_mono {s : List ℚ} (hs : List.Sorted (· ≤ ·) s) {p q : ℚ}
    (hp0 : 0 ≤ p) (hpq : p ≤ q) (hqn : q ≤ (s.length : ℚ) - 1) :
    interpolate s p ≤ interpolate s q := by
  have hq0 : 0 ≤ q := le_trans hp0 hpq
  have hpn : p ≤ (s.length : ℚ) - 1 := le_trans hpq hqn
  have hn1 : 1 ≤ s.length := length_pos_of_pos_le hq0 hqn
  have hfq : ⌊q⌋ ≤ (s.length : ℤ) - 1 := by
    have h1 : (⌊q⌋ : ℚ) ≤ q := Int.floor_le q
    have h2 : (⌊q⌋ : ℚ) ≤ (s.length : ℚ) - 1 := le_trans h1 hqn
    have h3 : ((s.length : ℤ) - 1 : ℤ) = ((s.length : ℚ) - 1 : ℚ) ∨ True := Or.inr trivial
    have : (⌊q⌋ : ℚ) ≤ (((s.length : ℤ) - 1 : ℤ) : ℚ) := by push_cast; linarith
    exact_mod_cast this
  rcases lt_or_eq_of_le (Int.floor_le_floor hpq) with hlt | heq
  · calc interpolate s p ≤ s.getD (Int.toNat ⌈p⌉) 0 := interpolate_ub hs hp0 hpn
      _ ≤ s.getD (Int.toNat ⌊q⌋) 0 := by
          apply sorted_getD_mono hs
          · have := Int.ceil_le_floor_add_one p
            omega
          · have hf0 : (0 : ℤ) ≤ ⌊q⌋ := Int.floor_nonneg.2 hq0
            omega
      _ ≤ interpolate s q := interpolate_lb hs hq0 hqn
  · by_cases hint : (⌊p⌋ : ℚ) = p
    · have hval : interpolate s p = s.getD (Int.toNat ⌊p⌋) 0 := by
        simp only [interpolate]
        have hfrac : p - (⌊p⌋ : ℚ) = 0 := by
          rw [hint]
          ring
        rw [hfrac, zero_mul, add_zero]
      rw [hval, heq]
      exact interpolate_lb hs hq0 hqn
    · have hql : (⌊p⌋ : ℚ) < p := lt_of_le_of_ne (Int.floor_le p) hint
      have hq_nint : (⌊q⌋ : ℚ) ≠ q := by
        intro hqe
        rw [← heq] at hqe
        linarith
      have hqlt : (⌊q⌋ : ℚ) < q := lt_of_le_of_ne (Int.floor_le q) hq_nint
      have hcp : ⌈p⌉ = ⌊p⌋ + 1 := by
        have h1 : ⌈p⌉ ≤ ⌊p⌋ + 1 := Int.ceil_le_floor_add_one p
        have h2 : ⌊p⌋ < ⌈p⌉ := by
          have h3 : (⌊p⌋ : ℚ) < (⌈p⌉ : ℚ) := lt_of_lt_of_le hql (Int.le_ceil p)
          exact_mod_cast h3
        omega
      have hcq : ⌈q⌉ = ⌊q⌋ + 1 := by
        have h1 : ⌈q⌉ ≤ ⌊q⌋ + 1 := Int.ceil_le_floor_add_one q
        have h2 : ⌊q⌋ < ⌈q⌉ := by
          have h3 : (⌊q⌋ : ℚ) < (⌈q⌉ : ℚ) := lt_of_lt_of_le hqlt (Int.le_ceil q)
          exact_mod_cast h3
        omega
      have hf0 : (0 : ℤ) ≤ ⌊q⌋ := Int.floor_nonneg.2 hq0
      have hcq_le : ⌈q⌉ ≤ (s.length : ℤ) - 1 := by
        rw [Int.ceil_le]
        push_cast
        linarith
      have hmono : s.getD (Int.toNat ⌊q⌋) 0 ≤ s.getD (Int.toNat (⌊q⌋ + 1)) 0 := by
        apply sorted_getD_mono hs
        · omega
        · omega
      simp only [interpolate]
      rw [heq, hcp, hcq, heq]
      nlinarith [mul_nonneg (sub_nonneg.2 hpq) (sub_nonneg.2 hmono)]

lemma interpolate_intCast (s : List ℚ) (k : ℤ) :
    interpolate s ((k : ℚ)) = s.getD k.toNat 0 := by
  simp only [interpolate, Int.floor_intCast, Int.ceil_intCast]
  ring

end MetricsCalculator

/-- C6.  For every list of latency values the statistics returned by
`calculate_latency_stats` satisfy `min ≤ p50 ≤ p95 ≤ p99 ≤ max` and
`min ≤ mean ≤ max`; on the empty list every field is zero; on a
one-element list `min = max = mean = median = p50 = p95 = p99 = x` and
the standard deviation is zero (`std_sq = 0`).  Percentiles are the
linear interpolation between the two nearest ranks of the sorted
sample (`interpolate`/`percentile` above). -/
theorem latency_stats_ordered :
    (∀ l : List ℚ,
      (MetricsCalculator.calculate_latency_stats l).min ≤
        (MetricsCalculator.calculate_latency_stats l).p50 ∧
      (MetricsCalculator.calculate_latency_stats l).p50 ≤
        (MetricsCalculator.calculate_latency_stats l).p95 ∧
      (MetricsCalculator.calculate_latency_stats l).p95 ≤
        (MetricsCalculator.calculate_latency_stats l).p99 ∧
      (MetricsCalculator.calculate_latency_stats l).p99 ≤
        (MetricsCalculator.calculate_latency_stats l).max ∧
      (MetricsCalculator.calculate_latency_stats l).min ≤
        (MetricsCalculator.calculate_latency_stats l).mean ∧
      (MetricsCalculator.calculate_latency_stats l).mean ≤
        (MetricsCalculator.calculate_latency_stats l).max) ∧
    (MetricsCalculator.calculate_latency_stats [] =
      { min := 0, max := 0, mean := 0, median := 0, p50 := 0, p95 := 0, p99 := 0,
        std_sq := 0 }) ∧
    (∀ x : ℚ, MetricsCalculator.calculate_latency_stats [x] =
      { min := x, max := x, mean := x, median := x, p50 := x, p95 := x, p99 := x,
        std_sq := 0 }) := by
  open MetricsCalculator in
  refine ⟨?_, rfl, ?_⟩
  · intro l
    by_cases hne : l = []
    · subst hne
      norm_num [MetricsCalculator.calculate_latency_stats]
    · simp only [MetricsCalculator.calculate_latency_stats, if_neg hne]
      have hn : 1 ≤ l.length := List.length_pos.mpr hne
      have hsl : (MetricsCalculator.sortedOf l).length = l.length :=
        MetricsCalculator.sortedOf_length l
      have hsorted := MetricsCalculator.sortedOf_sorted l
      have hc0 : (0 : ℚ) ≤ (l.length : ℚ) - 1 := by
        have : (1 : ℚ) ≤ (l.length : ℚ) := by exact_mod_cast hn
        linarith
      have hcs : ((MetricsCalculator.sortedOf l).length : ℚ) - 1 = (l.length : ℚ) - 1 := by
        rw [hsl]
      have hmin_i : MetricsCalculator.npMin l =
          MetricsCalculator.interpolate (MetricsCalculator.sortedOf l) 0 := by
        rw [MetricsCalculator.npMin_eq_sorted_head hne]
        have h := MetricsCalculator.interpolate_intCast (MetricsCalculator.sortedOf l) 0
        simpa using h.symm
      have hmax_i : MetricsCalculator.npMax l =
          MetricsCalculator.interpolate (MetricsCalculator.sortedOf l)
            ((l.length : ℚ) - 1) := by
        rw [MetricsCalculator.npMax_eq_sorted_last hne]
        have h := MetricsCalculator.interpolate_intCast (MetricsCalculator.sortedOf l)
          ((l.length : ℤ) - 1)
        have hcast : (((l.length : ℤ) - 1 : ℤ) : ℚ) = (l.length : ℚ) - 1 := by
          push_cast
          ring
        rw [hcast] at h
        rw [h]
        congr 1
        omega
      have hmono : ∀ p q : ℚ, 0 ≤ p → p ≤ q → q ≤ (l.length : ℚ) - 1 →
          MetricsCalculator.interpolate (MetricsCalculator.sortedOf l) p ≤
            MetricsCalculator.interpolate (MetricsCalculator.sortedOf l) q := by
        intro p q h1 h2 h3
        exact MetricsCalculator.interpolate_mono hsorted h1 h2 (by rw [hcs]; exact h3)
      have hp50 : (0 : ℚ) ≤ 50 / 100 * ((l.length : ℚ) - 1) := by positivity
      have h5095 : (50 : ℚ) / 100 * ((l.length : ℚ) - 1) ≤
          95 / 100 * ((l.length : ℚ) - 1) := by nlinarith
      have h9599 : (95 : ℚ) / 100 * ((l.length : ℚ) - 1) ≤
          99 / 100 * ((l.length : ℚ) - 1) := by nlinarith
      have h99n : (99 : ℚ) / 100 * ((l.length : ℚ) - 1) ≤ (l.length : ℚ) - 1 := by
        nlinarith
      have hlen0 : (0 : ℚ) < (l.length : ℚ) := by
        exact_mod_cast Nat.lt_of_lt_of_le Nat.zero_lt_one hn
      have hmean_lb : MetricsCalculator.npMin l ≤ MetricsCalculator.npMean l := by
        have hsum : l.length • MetricsCalculator.npMin l ≤ l.sum :=
          List.card_nsmul_le_sum l _ MetricsCalculator.npMin_le
        rw [nsmul_eq_mul] at hsum
        rw [MetricsCalculator.npMean, le_div_iff₀ hlen0]
        linarith
      have hmean_ub : MetricsCalculator.npMean l ≤ MetricsCalculator.npMax l := by
        have hsum : l.sum ≤ l.length • MetricsCalculator.npMax l :=
          List.sum_le_card_nsmul _ _ MetricsCalculator.le_npMax
        rw [nsmul_eq_mul] at hsum
        rw [MetricsCalculator.npMean, div_le_iff₀ hlen0]
        linarith
      refine ⟨?_, ?_, ?_, ?_, hmean_lb, hmean_ub⟩
      · rw [hmin_i]
        exact hmono 0 _ le_rfl hp50 (le_trans (le_trans h5095 h9599) h99n)
      · exact hmono _ _ hp50 h5095 (le_trans h9599 h99n)
      · exact hmono _ _ (le_trans hp50 h5095) h9599 h99n
      · rw [hmax_i]
        exact hmono _ _ (le_trans (le_trans hp50 h5095) h9599) h99n le_rfl
  · intro x
    have hone : MetricsCalculator.sortedOf [x] = [x] := rfl
    have hlen1 : (([x] : List ℚ).length : ℚ) - 1 = 0 := by norm_num
    have hpos : ∀ q : ℚ, MetricsCalculator.percentile [x] q = x := by
      intro q
      unfold MetricsCalculator.percentile
      rw [hlen1, mul_zero, hone]
      have h := MetricsCalculator.interpolate_intCast [x] 0
      simpa using h
    have hmean1 : MetricsCalculator.npMean [x] = x := by
      simp [MetricsCalculator.npMean]
    simp only [MetricsCalculator.calculate_latency_stats,
      if_neg (show ([x] : List ℚ) ≠ [] by simp), MetricsCalculator.npMedian]
    rw [hpos 50, hpos 95, hpos 99]
    have hvar : MetricsCalculator.npVarianceOf [x] = 0 := by
      simp [MetricsCalculator.npVarianceOf, hmean1]
    rw [hvar, hmean1]
    have hminx : MetricsCalculator.npMin [x] = x := rfl
    have hmaxx : MetricsCalculator.npMax [x] = x := rfl
    rw [hminx, hmaxx]

/-!
## Permutation invariance of aggregation
-/

namespace MetricsCalculator

lemma sortedOf_congr {l l2 : List ℚ} (h : List.Perm l l2) :
    sortedOf l = sortedOf l2 :=
  List.eq_of_perm_of_sorted
    ((sortedOf_perm l).trans (h.trans (sortedOf_perm l2).symm))
    (sortedOf_sorted l) (sortedOf_sorted l2)

lemma calculate_latency_stats_perm {l l2 : List ℚ} (h : List.Perm l l2) :
    calculate_latency_stats l = calculate_latency_stats l2 := by
  by_cases hne : l = []
  · have hne2 : l2 = [] := by
      subst hne
      exact h.symm.eq_nil
    rw [hne, hne2]
  · have hne2 : l2 ≠ [] := by
      intro h2
      exact hne (h.trans (h2 ▸ List.Perm.refl _)).eq_nil
    have hlen := h.length_eq
    have hsort := sortedOf_congr h
    have hmean : npMean l = npMean l2 := by
      unfold npMean
      rw [h.sum_eq, hlen]
    have hperc : ∀ q : ℚ, percentile l q = percentile l2 q := by
      intro q
      unfold percentile
      rw [hsort, hlen]
    have hvar : npVarianceOf l = npVarianceOf l2 := by
      unfold npVarianceOf
      rw [hmean, (h.map (fun x => (x - npMean l2) ^ 2)).sum_eq, hlen]
    have hmin : npMin l = npMin l2 := by
      rw [npMin_eq_sorted_head hne, npMin_eq_sorted_head hne2, hsort]
    have hmax : npMax l = npMax l2 := by
      rw [npMax_eq_sorted_last hne, npMax_eq_sorted_last hne2, hsort]
    unfold calculate_latency_stats
    rw [if_neg hne, if_neg hne2]
    unfold npMedian
    rw [hmin, hmax, hmean, hperc 50, hperc 95, hperc 99, hvar]

end MetricsCalculator

lemma goodput_calculate_perm {l l2 : List RequestResult}
    (h : List.Perm l l2) (th : GoodputThresholds) :
    GoodputCalculator.calculate l th = GoodputCalculator.calculate l2 th := by
  by_cases hne : l = []
  · have hne2 : l2 = [] := by
      subst hne
      exact h.symm.eq_nil
    rw [hne, hne2]
  · have hne2 : l2 ≠ [] := by
      intro h2
      exact hne (h.trans (h2 ▸ List.Perm.refl _)).eq_nil
    have hcount : ∀ p : RequestResult → Bool, l.countP p = l2.countP p :=
      fun p => h.countP_eq p
    unfold GoodputCalculator.calculate
    rw [if_neg hne, if_neg hne2]
    simp only [hcount, h.length_eq]

/-- C10 (implicit).  `MetricsCalculator.aggregate_results` is
permutation-invariant: aggregating any permutation of a result list
under the same duration, concurrency and thresholds yields an
identical `ConcurrencyResult` in every field — latency statistics,
goodput counts, token totals and rates depend only on the multiset of
results. -/
theorem aggregate_results_perm_invariant
    (results results2 : List RequestResult) (d : ℚ) (c : Int)
    (th : Option GoodputThresholds) (h : List.Perm results results2) :
    MetricsCalculator.aggregate_results results d c th =
      MetricsCalculator.aggregate_results results2 d c th := by
  have hs : List.Perm (results.filter (fun r => r.success))
      (results2.filter (fun r => r.success)) := h.filter _
  have hf : List.Perm (results.filter (fun r => !r.success))
      (results2.filter (fun r => !r.success)) := h.filter _
  have httft := MetricsCalculator.calculate_latency_stats_perm
    (hs.map (fun r => r.ttft_ms))
  have he2e := MetricsCalculator.calculate_latency_stats_perm
    (hs.map (fun r => r.e2e_latency_ms))
  have htpotp : List.Perm
      ((results.filter (fun r => r.success)).filterMap (fun r => r.tpot_ms))
      ((results2.filter (fun r => r.success)).filterMap (fun r => r.tpot_ms)) :=
    hs.filterMap _
  have hitlp : List.Perm
      (((results.filter (fun r => r.success)).map MetricsCalculator.itlContrib).flatten)
      (((results2.filter (fun r => r.success)).map MetricsCalculator.itlContrib).flatten) :=
    (hs.map _).flatten
  have hinp := (hs.map (fun r => r.input_tokens)).sum_eq
  have houtp := (hs.map (fun r => r.output_tokens)).sum_eq
  have hgood : ∀ t : GoodputThresholds,
      GoodputCalculator.calculate (results.filter (fun r => r.success)) t =
        GoodputCalculator.calculate (results2.filter (fun r => r.success)) t :=
    fun t => goodput_calculate_perm hs t
  have hres_nil : (results = []) ↔ (results2 = []) := by
    constructor
    · intro h1
      exact (h1 ▸ h : List.Perm [] results2).symm.eq_nil
    · intro h2
      exact (h.trans (h2 ▸ List.Perm.refl _)).eq_nil
  have htpot_nil :
      ((results.filter (fun r => r.success)).filterMap (fun r => r.tpot_ms) = []) ↔
      ((results2.filter (fun r => r.success)).filterMap (fun r => r.tpot_ms) = []) := by
    constructor
    · intro h1
      exact (h1 ▸ htpotp : List.Perm [] _).symm.eq_nil
    · intro h2
      exact (htpotp.trans (h2 ▸ List.Perm.refl _)).eq_nil
  have hitl_nil :
      ((((results.filter (fun r => r.success)).map
          MetricsCalculator.itlContrib).flatten) = []) ↔
      ((((results2.filter (fun r => r.success)).map
          MetricsCalculator.itlContrib).flatten) = []) := by
    constructor
    · intro h1
      exact (h1 ▸ hitlp : List.Perm [] _).symm.eq_nil
    · intro h2
      exact (hitlp.trans (h2 ▸ List.Perm.refl _)).eq_nil
  simp only [MetricsCalculator.aggregate_results]
  rw [httft, he2e, hinp, houtp, h.length_eq, hs.length_eq, hf.length_eq]
  congr 1
  · by_cases h1 : (results.filter (fun r => r.success)).filterMap
        (fun r => r.tpot_ms) = []
    · rw [if_pos h1, if_pos (htpot_nil.mp h1)]
    · rw [if_neg h1, if_neg (fun h2 => h1 (htpot_nil.mpr h2)),
        MetricsCalculator.calculate_latency_stats_perm htpotp]
  · by_cases h1 : (((results.filter (fun r => r.success)).map
        MetricsCalculator.itlContrib).flatten) = []
    · rw [if_pos h1, if_pos (hitl_nil.mp h1)]
    · rw [if_neg h1, if_neg (fun h2 => h1 (hitl_nil.mpr h2)),
        MetricsCalculator.calculate_latency_stats_perm hitlp]
  · by_cases h1 : results = []
    · rw [if_pos h1, if_pos (hres_nil.mp h1)]
    · rw [if_neg h1, if_neg (fun h2 => h1 (hres_nil.mpr h2))]
  · cases th with
    | none => rfl
    | some t => simp [hgood t]

/-- A second synthetic result, distinct from `sampleSuccess`. -/
def sampleFailure : RequestResult :=
  { request_id := 1, ttft_ms := 0, e2e_latency_ms := 7,
    input_tokens := 2, output_tokens := 0, success := false,
    error_type := some "ReadTimeout" }

/-- C10 witness: swapping two concrete results leaves the aggregation
unchanged. -/
theorem aggregate_results_perm_invariant_witness :
    MetricsCalculator.aggregate_results [sampleSuccess, sampleFailure] 2 1
        (some goodputScenarioThresholds) =
      MetricsCalculator.aggregate_results [sampleFailure, sampleSuccess] 2 1
        (some goodputScenarioThresholds) :=
  aggregate_results_perm_invariant [sampleSuccess, sampleFailure]
    [sampleFailure, sampleSuccess] 2 1 (some goodputScenarioThresholds)
    (List.Perm.swap sampleFailure sampleSuccess [])
